import Mathlib

/-!
Verification of the termux-monitor decision engine (`src/termux_monitor/core.py`)
against its natural-language specification.

The Python code is shallowly embedded: each external effect (subprocess
invocation, HTTP attempt, sleep) is driven by an explicit oracle / result
parameter, and functions return their value together with a trace of the
external calls they made.  Python truthiness (`if not device_info`,
`if notifications`, `if not country`) is modelled explicitly.
-/

namespace TermuxMonitor

/-- Lowercase a string character by character (Python `str.lower()` on the
ASCII range, as used by `is_network_up`). -/
def lowerStr (s : String) : String := ⟨s.data.map Char.toLower⟩

/-- Substring containment (Python `needle in hay`): some suffix of `hay`
starts with `needle`. -/
def strContains (hay needle : String) : Bool :=
  hay.data.tails.any (fun t => needle.data.isPrefixOf t)

/-- A notification record (`termux-notification-list` entry).  Only the two
fields the code reads are modelled; `Option` captures a missing key
(`dict.get` returning `None`). -/
structure Notification where
  packageName : Option String
  content : Option String
deriving DecidableEq, Repr

/-- Device telephony info: a JSON object modelled as an association list of
string keys to string values. -/
def DeviceInfo := List (String × String)
deriving DecidableEq, Repr

/-- `is_network_up(notifications)` from core.py: scan the list; on the first
entry whose `packageName` is `"com.android.phone"` and whose `content`
(defaulted to `""`, lowercased) contains `"no service"` or `"unavailable"`,
return `False`; if the scan finishes, return `True`. -/
def is_network_up : List Notification → Bool
  | [] => true
  | n :: rest =>
    if n.packageName = some "com.android.phone" then
      let content := lowerStr (n.content.getD "")
      if strContains content "no service" || strContains content "unavailable" then
        false
      else
        is_network_up rest
    else
      is_network_up rest

/-- `is_network_operator_name_as_desired(device_info)` from core.py:
`device_info` must be truthy (non-empty dict) and contain the key
`"network_operator_name"`, whose value is compared to the target operator
name; otherwise `False`. -/
def is_network_operator_name_as_desired (target : String) (device_info : DeviceInfo) : Bool :=
  match device_info with
  | [] => false
  | l =>
    match l.lookup "network_operator_name" with
    | some v => v = target
    | none => false

/-- The possible outcomes of `subprocess.run([...], check=True)` for the
ping probe: clean exit, non-zero exit (raising `CalledProcessError`), or a
spawn failure raised by `subprocess.run` itself (`FileNotFoundError` when
the binary is missing, `PermissionError` when it is not executable). -/
inductive RunOutcome where
  | ok
  | nonzeroExit
  | spawnNotFound
  | spawnPermError
deriving DecidableEq, Repr

/-- `is_internet_connected(host, timeout)` from core.py: run the ping
command; return `True` on success; the `except` clause catches only
`subprocess.CalledProcessError` (non-zero exit) and returns `False`; any
other exception propagates (modelled as `Except.error`). -/
def is_internet_connected (r : RunOutcome) : Except RunOutcome Bool :=
  match r with
  | .ok => .ok true
  | .nonzeroExit => .ok false
  | .spawnNotFound => .error .spawnNotFound
  | .spawnPermError => .error .spawnPermError

/-- Externally observable events of one `restart_wifi` run. -/
inductive WifiEvent where
  | disable
  | sleep (seconds : Nat)
  | enable
deriving DecidableEq, Repr

/-- `restart_wifi(delay)` from core.py: run `termux-wifi-enable false`;
sleep `delay` seconds; run `termux-wifi-enable true`; return `True`.  A
`CalledProcessError` or `TimeoutExpired` from either command is caught and
yields `False` (aborting the rest of the sequence).  `disableOk` and
`enableOk` say whether the respective command succeeds; the second
component is the trace of events that actually occurred. -/
def restart_wifi (delay : Nat) (disableOk enableOk : Bool) : Bool × List WifiEvent :=
  if !disableOk then
    (false, [.disable])
  else if !enableOk then
    (false, [.disable, .sleep delay, .enable])
  else
    (true, [.disable, .sleep delay, .enable])

/-- Outcome of one HTTP attempt inside `get_country`'s retry loop:
`transient` is a `Timeout`/`ConnectionError`; `httpError` is an HTTP error
status raised by `raise_for_status()` (a `RequestException`); `badJson` is
a malformed body (`JSONDecodeError`); `otherError` is any other exception;
`ok c` is a 200 response whose parsed JSON has `data.get("country") = c`
(`none` when the field is missing). -/
inductive AttemptResult where
  | transient
  | httpError
  | badJson
  | otherError
  | ok (country : Option String)
deriving DecidableEq, Repr

/-- The `while retry_count < max_retries` loop of `get_country`.  `fuel` is
`max_retries - retry_count`, `idx` the index of the next attempt in the
oracle, `backoffDelay` the current backoff delay.  Returns the Python
return value, the list of `time.sleep` delays performed, and the number of
HTTP attempts made.  A transient failure sleeps `backoffDelay`, doubles it
capped at `maxBackoff`, and retries; every other attempt outcome returns
immediately. -/
def getCountryLoop (oracle : Nat → AttemptResult) (maxBackoff : Nat) :
    Nat → Nat → Nat → Option String × List Nat × Nat
  | 0, _, _ => (none, [], 0)
  | fuel + 1, idx, backoffDelay =>
    match oracle idx with
    | .transient =>
      let r := getCountryLoop oracle maxBackoff fuel (idx + 1) (min (backoffDelay * 2) maxBackoff)
      (r.1, backoffDelay :: r.2.1, r.2.2 + 1)
    | .httpError => (none, [], 1)
    | .badJson => (none, [], 1)
    | .otherError => (none, [], 1)
    | .ok c => (c, [], 1)

/-- `get_country(max_retries, timeout, url, backoff_factor, max_backoff)`
from core.py: if `is_internet_connected()` is falsy return `None` at once
(no attempts, no sleeps); otherwise run the retry loop starting with
`retry_count = 0` and `backoff_delay = backoff_factor`.  `connected` is the
probe's result, `oracle` the outcome of each successive HTTP attempt. -/
def get_country (connected : Bool) (oracle : Nat → AttemptResult)
    (maxRetries backoffFactor maxBackoff : Nat) : Option String × List Nat × Nat :=
  if !connected then
    (none, [], 0)
  else
    getCountryLoop oracle maxBackoff maxRetries 0 backoffFactor

/-- The external collaborators one `check_and_restart_wifi` run can touch,
in the order the code may call them. -/
inductive Call where
  | deviceInfo
  | notifications
  | getCountry
  | restartWifi
deriving DecidableEq, Repr

/-- Which terminal branch of `check_and_restart_wifi` the run ended in;
each branch emits exactly one distinct log line in the code. -/
inductive Terminal where
  | deviceInfoUnknown
  | noActionNeeded
  | countryUnresolved
  | countryMismatch
  | restartAttempted
deriving DecidableEq, Repr

/-- The environment of one decision cycle: results of the external calls
`check_and_restart_wifi` may make. -/
structure Env where
  deviceInfo : Option DeviceInfo
  notifications : Option (List Notification)
  connected : Bool
  oracle : Nat → AttemptResult
  wifiDelay : Nat
  disableOk : Bool
  enableOk : Bool

/-- `check_and_restart_wifi()` from core.py.  `target` is
`TelephonyConfig.TARGET_OPERATOR_NAME`, `maxRetries` is
`GetCountryConfig.MAX_RETRIES`; the `get_country()` call uses the
function's default `backoff_factor=1`, `max_backoff=32`.

Faithful points: `if not device_info` is Python truthiness (`None` or the
empty dict both stop with `False`); the health test is the conditional
expression `is_network_operator_name_as_desired(device_info) and
is_network_up(notifications) if notifications else True`, which Python
parses as `(A and B) if notifications else True`, with `notifications`
truthy only when non-`None` AND non-empty; `if not country` is truthy for
both `None` and the empty string.  Returns the bool result, the terminal
branch taken, and the trace of external calls made. -/
def check_and_restart_wifi (target : String) (maxRetries : Nat) (env : Env) :
    Bool × Terminal × List Call :=
  match env.deviceInfo with
  | none => (false, .deviceInfoUnknown, [.deviceInfo])
  | some device_info =>
    if device_info.isEmpty then
      (false, .deviceInfoUnknown, [.deviceInfo])
    else
      let healthy : Bool :=
        match env.notifications with
        | some (n :: ns) =>
          is_network_operator_name_as_desired target device_info && is_network_up (n :: ns)
        | _ => true
      if !healthy then
        let country := (get_country env.connected env.oracle maxRetries 1 32).1
        match country with
        | none => (false, .countryUnresolved, [.deviceInfo, .notifications, .getCountry])
        | some c =>
          if c = "" then
            (false, .countryUnresolved, [.deviceInfo, .notifications, .getCountry])
          else if c = "IN" then
            let r := restart_wifi env.wifiDelay env.disableOk env.enableOk
            (r.1, .restartAttempted, [.deviceInfo, .notifications, .getCountry, .restartWifi])
          else
            (false, .countryMismatch, [.deviceInfo, .notifications, .getCountry])
      else
        (false, .noActionNeeded, [.deviceInfo, .notifications])

/-- The per-entry "network down" test of `is_network_up`: the entry's
`packageName` is `"com.android.phone"` and its `content` (defaulted to
`""`, lowercased) contains `"no service"` or `"unavailable"`. -/
def signalsDown (n : Notification) : Bool :=
  decide (n.packageName = some "com.android.phone") &&
    (strContains (lowerStr (n.content.getD "")) "no service" ||
     strContains (lowerStr (n.content.getD "")) "unavailable")

lemma is_network_up_eq_not_any : ∀ l : List Notification,
    is_network_up l = !(l.any signalsDown)
  | [] => rfl
  | n :: rest => by
    by_cases h : n.packageName = some "com.android.phone"
    · by_cases h2 : (strContains (lowerStr (n.content.getD "")) "no service" ||
          strContains (lowerStr (n.content.getD "")) "unavailable") = true
      · simp [is_network_up, signalsDown, h, h2]
      · simp only [Bool.or_eq_true, not_or, Bool.not_eq_true] at h2
        simp [is_network_up, signalsDown, h, h2.1, h2.2, is_network_up_eq_not_any rest]
    · simp [is_network_up, signalsDown, h, is_network_up_eq_not_any rest]

lemma any_eq_of_perm {l l' : List Notification} (h : l.Perm l')
    (p : Notification → Bool) : l.any p = l'.any p := by
  cases hA : l.any p <;> cases hB : l'.any p
  · rfl
  · exfalso
    rw [List.any_eq_true] at hB
    obtain ⟨x, hx, hpx⟩ := hB
    have hA' : l.any p = true := List.any_eq_true.mpr ⟨x, h.mem_iff.mpr hx, hpx⟩
    rw [hA] at hA'
    exact Bool.false_ne_true hA'
  · exfalso
    rw [List.any_eq_true] at hA
    obtain ⟨x, hx, hpx⟩ := hA
    have hB' : l'.any p = true := List.any_eq_true.mpr ⟨x, h.mem_iff.mp hx, hpx⟩
    rw [hB] at hB'
    exact Bool.false_ne_true hB'
  · rfl

/-- C9: `is_network_up` returns false iff some entry has `packageName`
`"com.android.phone"` and its content, lowercased, contains `"no service"`
or `"unavailable"`; the empty list yields true; and a permutation of the
entries never changes the result. -/
theorem c9_is_network_up_spec : ∀ (l l' : List Notification),
    (is_network_up l = false ↔ ∃ n ∈ l, signalsDown n = true)
    ∧ is_network_up ([] : List Notification) = true
    ∧ (l.Perm l' → is_network_up l = is_network_up l') := by
  intro l l'
  refine ⟨?_, rfl, ?_⟩
  · rw [is_network_up_eq_not_any]
    rw [show (!l.any signalsDown) = false ↔ l.any signalsDown = true by
      cases l.any signalsDown <;> simp]
    exact List.any_eq_true
  · intro hp
    rw [is_network_up_eq_not_any, is_network_up_eq_not_any, any_eq_of_perm hp]

/-- C9 witness: a concrete two-element list where the phone entry reports
"No Service", in both orders. -/
theorem c9_is_network_up_spec_witness :
    ([⟨some "com.android.phone", some "No Service"⟩, ⟨some "other", none⟩] :
        List Notification).Perm
      [⟨some "other", none⟩, ⟨some "com.android.phone", some "No Service"⟩]
    ∧ is_network_up [⟨some "com.android.phone", some "No Service"⟩, ⟨some "other", none⟩]
      = is_network_up [⟨some "other", none⟩, ⟨some "com.android.phone", some "No Service"⟩] := by
  refine ⟨List.Perm.swap _ _ _, ?_⟩
  exact (c9_is_network_up_spec
    [⟨some "com.android.phone", some "No Service"⟩, ⟨some "other", none⟩]
    [⟨some "other", none⟩, ⟨some "com.android.phone", some "No Service"⟩]).2.2
    (List.Perm.swap _ _ _)

/-- C10: an entry with `packageName` `"com.android.phone"` but no content
key is read as the empty string by `notification.get("content", "")`: it
never triggers the down condition, and prepending it to any list leaves
the result unchanged (in particular the singleton yields true). -/
theorem c10_missing_content : ∀ (n : Notification) (l : List Notification),
    n.packageName = some "com.android.phone" → n.content = none →
    signalsDown n = false
    ∧ is_network_up (n :: l) = is_network_up l
    ∧ is_network_up [n] = true := by
  intro n l hpkg hc
  have hdown : signalsDown n = false := by
    simp only [signalsDown, hc, Option.getD_none]
    rw [show strContains (lowerStr "") "no service" = false by decide,
      show strContains (lowerStr "") "unavailable" = false by decide]
    simp
  refine ⟨hdown, ?_, ?_⟩
  · rw [is_network_up_eq_not_any, is_network_up_eq_not_any, List.any_cons, hdown]
    simp
  · rw [is_network_up_eq_not_any, List.any_cons, hdown]
    simp

/-- C10 witness: the concrete phone entry with no content field. -/
theorem c10_missing_content_witness :
    (Notification.mk (some "com.android.phone") none).packageName = some "com.android.phone"
    ∧ (Notification.mk (some "com.android.phone") none).content = none
    ∧ is_network_up [⟨some "com.android.phone", none⟩] = true :=
  ⟨rfl, rfl, (c10_missing_content ⟨some "com.android.phone", none⟩ [] rfl rfl).2.2⟩

/-- C3 counterexample: when the ping binary is absent, `subprocess.run`
raises `FileNotFoundError`, which the probe's `except` clause (only
`CalledProcessError`) does not catch — the call does not return false. -/
theorem c3_not_total_counterexample :
    is_internet_connected .spawnNotFound ≠ .ok false := by
  simp [is_internet_connected]

/-- C3 amended: the probe returns true on exit 0 and false exactly when
the command runs and exits non-zero (host unreachable, probe timeout,
ping-reported permission error); a spawn failure (command not found,
non-executable binary) propagates as an uncaught exception. -/
theorem c3_is_internet_connected_spec :
    is_internet_connected .ok = .ok true
    ∧ is_internet_connected .nonzeroExit = .ok false
    ∧ is_internet_connected .spawnNotFound = .error .spawnNotFound
    ∧ is_internet_connected .spawnPermError = .error .spawnPermError :=
  ⟨rfl, rfl, rfl, rfl⟩

/-- C7: if the disable command fails, the enable command is never invoked
and the result is false; if both commands succeed, the result is true and
the sleep of `delay` seconds sits between the disable and enable events. -/
theorem c7_restart_wifi_spec : ∀ (delay : Nat) (enableOk : Bool),
    (restart_wifi delay false enableOk = (false, [.disable])
      ∧ WifiEvent.enable ∉ (restart_wifi delay false enableOk).2)
    ∧ restart_wifi delay true true = (true, [.disable, .sleep delay, .enable]) := by
  intro delay enableOk
  refine ⟨⟨rfl, ?_⟩, rfl⟩
  simp [restart_wifi]

/-- Oracle answering every HTTP attempt with a 200 response resolving
country `"IN"`. -/
def oracleIN : Nat → AttemptResult := fun _ => .ok (some "IN")

/-- Oracle answering every HTTP attempt with a 200 response whose JSON
`country` field is the empty string. -/
def oracleEmptyCountry : Nat → AttemptResult := fun _ => .ok (some "")

/-- Oracle answering every HTTP attempt with an HTTP error status. -/
def oracleHttpError : Nat → AttemptResult := fun _ => .httpError

/-- Oracle answering every HTTP attempt with a malformed JSON body. -/
def oracleBadJson : Nat → AttemptResult := fun _ => .badJson

/-- Spec scenario 2: operator `"Other"`, notification list present but
empty, country resolving to `"IN"`, remediation commands succeeding. -/
def envScenario2 : Env :=
  { deviceInfo := some [("network_operator_name", "Other")]
    notifications := some []
    connected := true
    oracle := oracleIN
    wifiDelay := 5
    disableOk := true
    enableOk := true }

/-- A run whose device-info command fails (`None` device info). -/
def envAbsentInfo : Env :=
  { envScenario2 with deviceInfo := none }

/-- A healthy run: operator matches the target, notifications absent. -/
def envHealthyRun : Env :=
  { envScenario2 with
    deviceInfo := some [("network_operator_name", "IND airtel")]
    notifications := none }

/-- An unhealthy run (operator mismatch, non-empty notification list) with
the internet down, so the country lookup fails. -/
def envUnresolvedRun : Env :=
  { envScenario2 with
    notifications := some [⟨some "other", none⟩]
    connected := false }

/-- An unhealthy run whose geo-IP lookup succeeds with an empty-string
country field. -/
def envEmptyCountry : Env :=
  { envUnresolvedRun with
    connected := true
    oracle := oracleEmptyCountry }

/-- An unhealthy run whose geo-IP lookup fails with an HTTP error. -/
def envFailedLookup : Env :=
  { envEmptyCountry with oracle := oracleHttpError }

/-- C1 (code slip): on spec scenario 2 — operator `"Other"`, present but
empty notification list, country resolving `"IN"` — the code takes the
"no action needed" branch and never calls the country resolver or the
remediator, because `A and B if notifications else True` parses as
`(A and B) if notifications else True` and the empty list is falsy. -/
theorem c1_scenario2_behavior :
    check_and_restart_wifi "IND airtel" 3 envScenario2
      = (false, .noActionNeeded, [.deviceInfo, .notifications])
    ∧ Call.restartWifi ∉ (check_and_restart_wifi "IND airtel" 3 envScenario2).2.2 := by
  refine ⟨rfl, ?_⟩
  simp [check_and_restart_wifi, envScenario2]

lemma check_result_false_or_restart (target : String) (maxRetries : Nat) (env : Env) :
    (check_and_restart_wifi target maxRetries env).1 = false ∨
    (check_and_restart_wifi target maxRetries env).2.1 = Terminal.restartAttempted := by
  obtain ⟨di, no, co, orc, wd, dok, eok⟩ := env
  unfold check_and_restart_wifi
  cases di with
  | none => left; rfl
  | some d =>
    dsimp only
    split
    · left; rfl
    · split
      · split
        · left; rfl
        · split
          · left; rfl
          · split
            · right; rfl
            · left; rfl
      · left; rfl

/-- C2 amended: the engine's returned outcome is a boolean, not tri-state:
every run that ends in the healthy no-op terminal branch or in the
country-unresolved terminal branch returns `false`, so the return value
cannot distinguish them (only the emitted log line differs). -/
theorem c2_outcome_boolean : ∀ (target : String) (maxRetries : Nat) (env : Env),
    ((check_and_restart_wifi target maxRetries env).2.1 = Terminal.noActionNeeded
      ∨ (check_and_restart_wifi target maxRetries env).2.1 = Terminal.countryUnresolved) →
    (check_and_restart_wifi target maxRetries env).1 = false := by
  intro target maxRetries env h
  rcases check_result_false_or_restart target maxRetries env with hf | hr
  · exact hf
  · rcases h with h | h
    · exact absurd (hr.symm.trans h) (by decide)
    · exact absurd (hr.symm.trans h) (by decide)

/-- C2 witness: the healthy concrete run ends in the no-op terminal branch
and indeed returns false. -/
theorem c2_outcome_boolean_witness :
    (check_and_restart_wifi "IND airtel" 3 envHealthyRun).2.1 = Terminal.noActionNeeded
    ∧ (check_and_restart_wifi "IND airtel" 3 envHealthyRun).1 = false :=
  ⟨rfl, c2_outcome_boolean "IND airtel" 3 envHealthyRun (Or.inl rfl)⟩

/-- C2 counterexample: a healthy run and a country-unresolved run whose
returned outcome values are equal (both `false`) — the bool return value
does not distinguish the two terminal states. -/
theorem c2_indistinguishable_counterexample :
    (check_and_restart_wifi "IND airtel" 3 envHealthyRun).2.1 = Terminal.noActionNeeded
    ∧ (check_and_restart_wifi "IND airtel" 3 envUnresolvedRun).2.1 = Terminal.countryUnresolved
    ∧ (check_and_restart_wifi "IND airtel" 3 envHealthyRun).1
      = (check_and_restart_wifi "IND airtel" 3 envUnresolvedRun).1 :=
  ⟨rfl, rfl, rfl⟩

/-- C8: whenever the device-info read yields Absent (`None`), the engine
returns false through the device-info-unknown branch and makes no further
external calls: its trace is the device-info call alone. -/
theorem c8_device_info_absent : ∀ (target : String) (maxRetries : Nat) (env : Env),
    env.deviceInfo = none →
    check_and_restart_wifi target maxRetries env
      = (false, .deviceInfoUnknown, [.deviceInfo]) := by
  intro target maxRetries env h
  obtain ⟨di, no, co, orc, wd, dok, eok⟩ := env
  cases h
  rfl

/-- C8 witness: the concrete absent-device-info run. -/
theorem c8_device_info_absent_witness :
    envAbsentInfo.deviceInfo = none
    ∧ check_and_restart_wifi "IND airtel" 3 envAbsentInfo
      = (false, .deviceInfoUnknown, [.deviceInfo]) :=
  ⟨rfl, c8_device_info_absent "IND airtel" 3 envAbsentInfo rfl⟩

/-- C4 amended: on a successful first HTTP attempt the resolver returns
the JSON `country` field verbatim — including the empty string, which is a
non-`None` result; distinguishing it from a failed lookup is then lost in
the decision engine, whose `if not country:` treats the empty string
exactly like `None`. -/
theorem c4_country_verbatim : ∀ (v : Option String) (oracle : Nat → AttemptResult)
    (maxRetries backoffFactor maxBackoff : Nat),
    0 < maxRetries → oracle 0 = .ok v →
    get_country true oracle maxRetries backoffFactor maxBackoff = (v, [], 1) := by
  intro v oracle maxRetries backoffFactor maxBackoff hmr h
  cases maxRetries with
  | zero => omega
  | succ k => simp [get_country, getCountryLoop, h]

/-- C4 witness: the resolver returns the empty-string country verbatim. -/
theorem c4_country_verbatim_witness :
    0 < 3 ∧ oracleEmptyCountry 0 = .ok (some "")
    ∧ get_country true oracleEmptyCountry 3 1 32 = (some "", [], 1) :=
  ⟨by decide, rfl, c4_country_verbatim (some "") oracleEmptyCountry 3 1 32 (by decide) rfl⟩

/-- C4 counterexample: a successful lookup with an empty-string country
field drives the decision engine to exactly the same result — value,
terminal branch and trace — as a failed lookup: the engine conflates the
empty string with absence. -/
theorem c4_empty_country_conflated_counterexample :
    (get_country true oracleEmptyCountry 3 1 32).1 = some ""
    ∧ check_and_restart_wifi "IND airtel" 3 envEmptyCountry
      = check_and_restart_wifi "IND airtel" 3 envFailedLookup
    ∧ (check_and_restart_wifi "IND airtel" 3 envEmptyCountry).2.1
      = Terminal.countryUnresolved :=
  ⟨rfl, rfl, rfl⟩

/-- C5: when the internet probe passes and the first HTTP attempt fails
non-transiently (HTTP error status or malformed JSON body), the resolver
returns `None` after exactly one attempt, with no backoff sleeps and no
further retries. -/
theorem c5_non_transient_aborts : ∀ (oracle : Nat → AttemptResult)
    (maxRetries backoffFactor maxBackoff : Nat),
    0 < maxRetries → (oracle 0 = .httpError ∨ oracle 0 = .badJson) →
    get_country true oracle maxRetries backoffFactor maxBackoff = (none, [], 1) := by
  intro oracle maxRetries backoffFactor maxBackoff hmr h
  cases maxRetries with
  | zero => omega
  | succ k => rcases h with h | h <;> simp [get_country, getCountryLoop, h]

/-- C5 witness: malformed JSON on the first attempt with the default
configuration. -/
theorem c5_non_transient_aborts_witness :
    0 < 3 ∧ oracleBadJson 0 = .badJson
    ∧ get_country true oracleBadJson 3 1 32 = (none, [], 1) :=
  ⟨by decide, rfl, c5_non_transient_aborts oracleBadJson 3 1 32 (by decide) (Or.inr rfl)⟩

/-- The backoff delay after `n` transient failures, starting from `d`:
each failure doubles it, capped at `cap`. -/
def backoffIter (cap d : Nat) : Nat → Nat
  | 0 => d
  | n + 1 => backoffIter cap (min (d * 2) cap) n

/-- The sleep delays performed by `n` consecutive transient failures,
starting from backoff delay `d`. -/
def backoffDelays (cap d : Nat) : Nat → List Nat
  | 0 => []
  | n + 1 => d :: backoffDelays cap (min (d * 2) cap) n

lemma getCountryLoop_transient_run (oracle : Nat → AttemptResult) (cap : Nat) :
    ∀ (N fuel idx d : Nat), N ≤ fuel →
    (∀ i, i < N → oracle (idx + i) = .transient) →
    getCountryLoop oracle cap fuel idx d =
      ((getCountryLoop oracle cap (fuel - N) (idx + N) (backoffIter cap d N)).1,
       backoffDelays cap d N
         ++ (getCountryLoop oracle cap (fuel - N) (idx + N) (backoffIter cap d N)).2.1,
       (getCountryLoop oracle cap (fuel - N) (idx + N) (backoffIter cap d N)).2.2 + N) := by
  intro N
  induction N with
  | zero =>
    intro fuel idx d _ _
    simp [backoffIter, backoffDelays]
  | succ n ih =>
    intro fuel idx d hle htr
    cases fuel with
    | zero => omega
    | succ f =>
      have h0 : oracle idx = .transient := by
        have := htr 0 (Nat.succ_pos n)
        simpa using this
      have hstep :
          getCountryLoop oracle cap (f + 1) idx d =
            ((getCountryLoop oracle cap f (idx + 1) (min (d * 2) cap)).1,
             d :: (getCountryLoop oracle cap f (idx + 1) (min (d * 2) cap)).2.1,
             (getCountryLoop oracle cap f (idx + 1) (min (d * 2) cap)).2.2 + 1) := by
        simp [getCountryLoop, h0]
      have htr' : ∀ i, i < n → oracle (idx + 1 + i) = .transient := by
        intro i hi
        have := htr (i + 1) (by omega)
        rw [show idx + 1 + i = idx + (i + 1) by omega]
        exact this
      have ihh := ih f (idx + 1) (min (d * 2) cap) (by omega) htr'
      rw [hstep, ihh]
      have hidx : idx + 1 + n = idx + (n + 1) := by omega
      have hfuel : f - n = f + 1 - (n + 1) := by omega
      simp only [backoffIter, backoffDelays, hidx, hfuel, Prod.mk.injEq]
      exact ⟨by simp, by simp, by omega⟩

lemma min_doubling (d cap i : Nat) :
    min (d * 2 ^ (i + 1)) cap = min (min (d * 2) cap * 2 ^ i) cap := by
  rcases le_or_lt (d * 2) cap with h | h
  · rw [Nat.min_eq_left h]
    congr 1
    ring
  · rw [Nat.min_eq_right h.le]
    have h2i : 1 ≤ 2 ^ i := Nat.one_le_two_pow
    have h1 : cap ≤ d * 2 ^ (i + 1) := by
      calc cap ≤ d * 2 := h.le
        _ ≤ d * 2 * 2 ^ i := Nat.le_mul_of_pos_right _ (by omega)
        _ = d * 2 ^ (i + 1) := by ring
    have h2 : cap ≤ cap * 2 ^ i := Nat.le_mul_of_pos_right _ (by omega)
    rw [Nat.min_eq_right h1, Nat.min_eq_right h2]

lemma backoffDelays_eq_formula (cap : Nat) :
    ∀ (N d : Nat), d ≤ cap →
    backoffDelays cap d N = (List.range N).map (fun i => min (d * 2 ^ i) cap) := by
  intro N
  induction N with
  | zero => intro d _; rfl
  | succ n ih =>
    intro d hd
    have hstep : min (d * 2) cap ≤ cap := Nat.min_le_right _ _
    rw [backoffDelays, ih (min (d * 2) cap) hstep, List.range_succ_eq_map]
    simp only [List.map_cons, List.map_map]
    have hhead : min (d * 2 ^ 0) cap = d := by
      simpa using Nat.min_eq_left hd
    rw [show ((fun i => min (d * 2 ^ i) cap) ∘ Nat.succ)
        = fun i => min (min (d * 2) cap * 2 ^ i) cap by
      funext i
      exact min_doubling d cap i]
    rw [hhead]

lemma backoffDelays_chain (cap : Nat) :
    ∀ (N d : Nat), d ≤ cap →
    List.Chain' (· ≤ ·) (backoffDelays cap d N) := by
  intro N
  induction N with
  | zero => intro d _; exact List.chain'_nil
  | succ n ih =>
    intro d hd
    have hstep : min (d * 2) cap ≤ cap := Nat.min_le_right _ _
    rw [backoffDelays]
    cases n with
    | zero => simp [backoffDelays]
    | succ m =>
      rw [backoffDelays]
      refine List.chain'_cons.mpr ⟨?_, ?_⟩
      · exact Nat.le_min.mpr ⟨by omega, hd⟩
      · have := ih (min (d * 2) cap) hstep
        rwa [backoffDelays] at this

/-- C6: with the internet probe passing, `N` consecutive transient
failures (`N < maxRetries`) followed by a success make the resolver return
the resolved country after exactly `N` backoff sleeps, whose delays double
from the initial backoff capped at the maximum backoff and are
non-decreasing; and if all `maxRetries` attempts fail transiently, the
resolver returns `None`. -/
theorem c6_retry_backoff :
    (∀ (oracle : Nat → AttemptResult) (N maxRetries b cap : Nat) (c : String),
      N < maxRetries → b ≤ cap →
      (∀ i, i < N → oracle i = .transient) → oracle N = .ok (some c) →
      get_country true oracle maxRetries b cap
        = (some c, (List.range N).map (fun i => min (b * 2 ^ i) cap), N + 1)
      ∧ List.Chain' (· ≤ ·) ((List.range N).map (fun i => min (b * 2 ^ i) cap)))
    ∧ (∀ (oracle : Nat → AttemptResult) (maxRetries b cap : Nat),
      (∀ i, i < maxRetries → oracle i = .transient) →
      (get_country true oracle maxRetries b cap).1 = none) := by
  constructor
  · intro oracle N maxRetries b cap c hN hb htr hok
    have hpre := getCountryLoop_transient_run oracle cap N maxRetries 0 b
      (Nat.le_of_lt hN) (by simpa using htr)
    simp only [Nat.zero_add] at hpre
    obtain ⟨k, hk⟩ : ∃ k, maxRetries - N = k + 1 := ⟨maxRetries - N - 1, by omega⟩
    have hrest : getCountryLoop oracle cap (maxRetries - N) N (backoffIter cap b N)
        = (some c, [], 1) := by
      rw [hk]
      simp only [getCountryLoop]
      rw [hok]
    constructor
    · show get_country true oracle maxRetries b cap = _
      rw [show get_country true oracle maxRetries b cap
          = getCountryLoop oracle cap maxRetries 0 b by simp [get_country]]
      rw [hpre, hrest, backoffDelays_eq_formula cap N b hb]
      simp [Nat.add_comm]
    · rw [← backoffDelays_eq_formula cap N b hb]
      exact backoffDelays_chain cap N b hb
  · intro oracle maxRetries b cap htr
    have hpre := getCountryLoop_transient_run oracle cap maxRetries maxRetries 0 b
      (Nat.le_refl _) (by simpa using htr)
    rw [show get_country true oracle maxRetries b cap
        = getCountryLoop oracle cap maxRetries 0 b by simp [get_country]]
    rw [hpre]
    simp [getCountryLoop, Nat.sub_self]

/-- Oracle with exactly two transient failures before a success. -/
def oracleTwoTransient : Nat → AttemptResult :=
  fun i => if i < 2 then .transient else .ok (some "IN")

/-- Oracle that fails transiently on every attempt. -/
def oracleAllTransient : Nat → AttemptResult := fun _ => .transient

/-- C6 witness: two transient failures then success under the default
configuration (maxRetries 3, backoff 1 doubling capped at 32) yield
country `"IN"` after sleeps `[1, 2]`; three straight transient failures
exhaust the retries and yield `None`. -/
theorem c6_retry_backoff_witness :
    2 < 3 ∧ 1 ≤ 32
    ∧ (∀ i, i < 2 → oracleTwoTransient i = .transient)
    ∧ oracleTwoTransient 2 = .ok (some "IN")
    ∧ get_country true oracleTwoTransient 3 1 32 = (some "IN", [1, 2], 3)
    ∧ (∀ i, i < 3 → oracleAllTransient i = .transient)
    ∧ (get_country true oracleAllTransient 3 1 32).1 = none := by
  refine ⟨by decide, by decide, by decide, rfl, ?_, by decide, ?_⟩
  · have h := (c6_retry_backoff.1 oracleTwoTransient 2 3 1 32 "IN"
      (by decide) (by decide) (by decide) rfl).1
    rw [h]
    rfl
  · exact c6_retry_backoff.2 oracleAllTransient 3 1 32 (by decide)

end TermuxMonitor
